import Mathlib

/-
Shallow embedding of `src/platformAccessory.ts` from the
iot-neopixel-homebridge plugin (class `LightBulbPlatformAccessory`).

The accessory exposes four handlers — `setOn`, `getOn`, `setBrightness`,
`getBrightness` — that translate HomeKit get/set requests into AWS IoT
shadow-document reads and writes.

Modelling choices:
* JavaScript values visible to this program are modelled by `JsVal`
  (undefined, null, booleans, numbers, strings, objects).  JavaScript
  numbers are modelled as exact rationals; over the integer inputs this
  program feeds into `Math.round((p / 100) * 255)` and
  `Math.round((n / 255) * 100)` the IEEE-double computation agrees with
  the exact rational one, so nothing is lost.  NaN is representable only
  as the `none` case of `Option ℚ` in the number-coercion layer.
* A property access `v.k` is `member v k`: it throws a TypeError when
  `v` is `undefined` or `null`, looks the key up when `v` is an object
  (absent keys yield `undefined`), and yields `undefined` on the other
  primitives (none of which own properties named `state`, `reported`,
  `light` or `brightness`).
* The AWS transport (`getThingShadow` / `updateThingShadow`, each used
  through `.promise()` and `await`, never wrapped in try/catch) is an
  oracle `Transport`; each operation also returns the trace of transport
  calls it issued, so "exactly one write and nothing else" is provable.
  A rejected promise surfaces as `BridgeError.transport e` with the
  original error `e` carried unchanged.
-/

namespace NeoPixel

/-- A transport-level failure raised by the AWS IoT data plane
(network / auth / remote error on `getThingShadow` or
`updateThingShadow`). -/
structure TransportError where
  message : String
deriving DecidableEq, Repr

/-- Errors an operation of the bridge can end in: a propagated transport
failure, or a JavaScript TypeError from accessing a property of
`undefined` / `null`. -/
inductive BridgeError where
  | transport (e : TransportError)
  | typeError
deriving DecidableEq, Repr

/-- JavaScript values as visible to this program.  Objects are finite
maps modelled as association lists (earlier bindings shadow later
ones; the objects this program builds or reads have distinct keys). -/
inductive JsVal where
  | undefined
  | null
  | bool (b : Bool)
  | num (q : ℚ)
  | str (s : String)
  | obj (fields : List (String × JsVal))

/-- Look a key up in an object's field list; an absent key reads as
`undefined`, as in JavaScript. -/
def lookupD (fields : List (String × JsVal)) (k : String) : JsVal :=
  match fields with
  | [] => .undefined
  | (k2, v) :: rest => if k2 = k then v else lookupD rest k

/-- JavaScript property access `v.k`.  Accessing a property of
`undefined` or `null` throws a TypeError; object access looks the key
up; the remaining primitives (booleans, numbers, strings) own no
property named `state`, `reported`, `light` or `brightness`, so for the
keys this program uses the access yields `undefined`. -/
def member (v : JsVal) (k : String) : Except BridgeError JsVal :=
  match v with
  | .undefined => .error .typeError
  | .null => .error .typeError
  | .obj fields => .ok (lookupD fields k)
  | _ => .ok .undefined

/-- JavaScript truthiness: `undefined`, `null`, `false`, `0` and `""`
are falsy, everything else this program can see is truthy. -/
def truthy : JsVal → Bool
  | .undefined => false
  | .null => false
  | .bool b => b
  | .num q => q ≠ 0
  | .str s => s ≠ ""
  | .obj _ => true

/-- JavaScript `a || b`: the first operand if truthy, otherwise the
second. -/
def jsOr (a b : JsVal) : JsVal :=
  if truthy a then a else b

/-- JavaScript ToNumber coercion, with `none` standing for NaN.
Numeric string literals are not modelled (this program never coerces a
non-empty string to a number); a plain object coerces to NaN. -/
def toNumber : JsVal → Option ℚ
  | .undefined => none
  | .null => some 0
  | .bool b => some (if b then 1 else 0)
  | .num q => some q
  | .str s => if s = "" then some 0 else none
  | .obj _ => none

/-- Strict equality `v === "lit"` of a JavaScript value against a string
literal: true exactly when `v` is a string with the same characters. -/
def strictEqStr (v : JsVal) (lit : String) : Bool :=
  match v with
  | .str s => s = lit
  | _ => false

/-- JavaScript `Math.round`: round half toward positive infinity,
i.e. `⌊q + 1/2⌋`, returned in the number domain. -/
def jsRound (q : ℚ) : ℚ :=
  (⌊q + 1/2⌋ : ℤ)

/-- The percentage-to-native conversion of `setBrightness`
(line 112: `Math.round((value as number / 100) * 255)`). -/
def toNative (value : ℚ) : ℚ :=
  jsRound (value / 100 * 255)

/-- The native-to-percentage conversion of `getBrightness`
(line 142: `Math.round((reportedBrightness / 255) * 100)`), lifted over
the NaN-aware number domain by the callers. -/
def toPercentage (native : ℚ) : ℚ :=
  jsRound (native / 255 * 100)

/-- Serialization of a rational JavaScript number inside
`JSON.stringify`.  Every number this program serializes is the integer
result of `Math.round`, printed without a fractional part. -/
def jsonNum (q : ℚ) : String :=
  if q.den = 1 then toString q.num else toString q

mutual

/-- `JSON.stringify` restricted to the values this program serializes
(objects of strings and integers; no escaping-worthy characters occur
in its keys or string values). -/
def stringify : JsVal → String
  | .undefined => "null"
  | .null => "null"
  | .bool b => if b then "true" else "false"
  | .num q => jsonNum q
  | .str s => "\"" ++ s ++ "\""
  | .obj fields => "\x7b" ++ stringifyFields fields ++ "\x7d"

/-- Comma-separated `"key":value` pairs of an object body. -/
def stringifyFields : List (String × JsVal) → String
  | [] => ""
  | [(k, v)] => "\"" ++ k ++ "\":" ++ stringify v
  | (k, v) :: rest => "\"" ++ k ++ "\":" ++ stringify v ++ "," ++ stringifyFields rest

end

/-- One call issued against the AWS IoT shadow transport: a
`getThingShadow` read, or an `updateThingShadow` write carrying the
serialized payload string. -/
inductive ShadowOp where
  | read
  | write (payload : String)
deriving DecidableEq, Repr

/-- The transport collaborator (the `IotData` instance): the outcome of
a shadow read (already parsed, as the program immediately runs
`JSON.parse` on the raw payload), and the outcome of a shadow write for
each payload.  A failed call rejects with a `TransportError`. -/
structure Transport where
  read : Except TransportError JsVal
  write : String → Except TransportError Unit

/-- The write payload built by `setOn` (lines 61–67):
`{ state: { desired: { light: value ? 'on' : 'off' } } }`. -/
def setOnPayload (value : Bool) : JsVal :=
  .obj [("state", .obj [("desired", .obj [("light", .str (if value then "on" else "off"))])])]

/-- `setOn` (lines 58–73): serialize the desired-light payload, issue
exactly one `updateThingShadow`, and propagate its outcome (the
function never catches the awaited promise's rejection). -/
def setOn (t : Transport) (value : Bool) : List ShadowOp × Except BridgeError Unit :=
  let payload := stringify (setOnPayload value)
  ([ShadowOp.write payload], match t.write payload with
    | .error e => .error (.transport e)
    | .ok _ => .ok ())

/-- The pure part of `getOn` after the shadow read (lines 94–104):
`payload.state.reported.light === 'on'`. -/
def getOnPayload (payload : JsVal) : Except BridgeError Bool := do
  let st ← member payload "state"
  let rep ← member st "reported"
  let light ← member rep "light"
  pure (strictEqStr light "on")

/-- `getOn` (lines 88–105): issue exactly one `getThingShadow`, then
inspect `payload.state.reported.light`; a rejected read propagates. -/
def getOn (t : Transport) : List ShadowOp × Except BridgeError Bool :=
  ([ShadowOp.read], match t.read with
    | .error e => .error (.transport e)
    | .ok payload => getOnPayload payload)

/-- The write payload built by `setBrightness` (lines 112–123):
`{ state: { desired: { brightness: Math.round((value / 100) * 255) } } }`. -/
def setBrightnessPayload (value : ℚ) : JsVal :=
  .obj [("state", .obj [("desired", .obj [("brightness", .num (toNative value))])])]

/-- `setBrightness` (lines 111–128): convert the percentage to the
native range, issue exactly one `updateThingShadow`, and propagate its
outcome. -/
def setBrightness (t : Transport) (value : ℚ) : List ShadowOp × Except BridgeError Unit :=
  let payload := stringify (setBrightnessPayload value)
  ([ShadowOp.write payload], match t.write payload with
    | .error e => .error (.transport e)
    | .ok _ => .ok ())

/-- The pure part of `getBrightness` after the shadow read
(lines 139–146): `payload.state.reported.brightness || 0`, then
`Math.round((reportedBrightness / 255) * 100)`.  The result stays in
the NaN-aware number domain (`none` = NaN). -/
def getBrightnessPayload (payload : JsVal) : Except BridgeError (Option ℚ) := do
  let st ← member payload "state"
  let rep ← member st "reported"
  let b ← member rep "brightness"
  let reportedBrightness := jsOr b (JsVal.num 0)
  pure ((toNumber reportedBrightness).map toPercentage)

/-- `getBrightness` (lines 134–147): issue exactly one
`getThingShadow`, then convert `payload.state.reported.brightness`; a
rejected read propagates. -/
def getBrightness (t : Transport) : List ShadowOp × Except BridgeError (Option ℚ) :=
  ([ShadowOp.read], match t.read with
    | .error e => .error (.transport e)
    | .ok payload => getBrightnessPayload payload)

/-- Field access on an object never throws. -/
lemma member_obj (fields : List (String × JsVal)) (k : String) :
    member (JsVal.obj fields) k = .ok (lookupD fields k) := rfl

/-- Evaluation of the pure part of `getOn` when the `reported` sub-tree
is an object: the result is the strict comparison of the `light` lookup
against the literal `"on"`. -/
lemma getOnPayload_eq (payload st : JsVal) (fields : List (String × JsVal))
    (h1 : member payload "state" = .ok st)
    (h2 : member st "reported" = .ok (.obj fields)) :
    getOnPayload payload = .ok (strictEqStr (lookupD fields "light") "on") := by
  simp [getOnPayload, h1, h2, member_obj, Except.instMonad, Except.bind, Except.map,
    Except.pure]

/-- Evaluation of the pure part of `getBrightness` when the `reported`
sub-tree is an object. -/
lemma getBrightnessPayload_eq (payload st : JsVal) (fields : List (String × JsVal))
    (h1 : member payload "state" = .ok st)
    (h2 : member st "reported" = .ok (.obj fields)) :
    getBrightnessPayload payload =
      .ok ((toNumber (jsOr (lookupD fields "brightness") (JsVal.num 0))).map toPercentage) := by
  simp [getBrightnessPayload, h1, h2, member_obj, Except.instMonad, Except.bind, Except.map,
    Except.pure]

/-- Strict comparison against `"on"` holds exactly on the string value
`"on"`. -/
lemma strictEqStr_on_iff (v : JsVal) : strictEqStr v "on" = true ↔ v = .str "on" := by
  cases v <;> simp [strictEqStr]

/-- C1: for every shadow read result whose `reported` sub-tree is
present (an object), `getOn` returns `true` iff `reported.light` is
exactly the string `"on"`; for every other value of `reported.light`,
including the field being absent, it returns `false` without raising an
error. -/
theorem getOn_true_iff_light_on (t : Transport) (payload st : JsVal)
    (fields : List (String × JsVal))
    (h0 : t.read = .ok payload)
    (h1 : member payload "state" = .ok st)
    (h2 : member st "reported" = .ok (.obj fields)) :
    (∃ b, (getOn t).2 = .ok b) ∧
    ((getOn t).2 = .ok true ↔ lookupD fields "light" = .str "on") := by
  have hg : (getOn t).2 = getOnPayload payload := by
    simp [getOn, h0]
  rw [hg, getOnPayload_eq payload st fields h1 h2]
  refine ⟨⟨_, rfl⟩, ?_⟩
  rw [← strictEqStr_on_iff]
  constructor
  · intro h
    exact (Except.ok.injEq _ _).mp h ▸ rfl
  · intro h
    rw [h]

/-- Witness for C1 on the concrete read result
`{ state: { reported: { light: "on" } } }`. -/
theorem getOn_true_iff_light_on_witness :
    (∃ b, (getOn ⟨Except.ok (JsVal.obj [("state", JsVal.obj [("reported",
        JsVal.obj [("light", JsVal.str "on")])])]), fun _ => Except.ok ()⟩).2 = .ok b) ∧
    ((getOn ⟨Except.ok (JsVal.obj [("state", JsVal.obj [("reported",
        JsVal.obj [("light", JsVal.str "on")])])]), fun _ => Except.ok ()⟩).2 = .ok true ↔
      lookupD [("light", JsVal.str "on")] "light" = .str "on") :=
  getOn_true_iff_light_on _ _ _ _ rfl rfl rfl

/-- C4: for every shadow read result whose `reported` sub-tree is
present but whose `reported.brightness` field is absent, `getBrightness`
returns `0` without raising an error. -/
theorem getBrightness_absent_is_zero (t : Transport) (payload st : JsVal)
    (fields : List (String × JsVal))
    (h0 : t.read = .ok payload)
    (h1 : member payload "state" = .ok st)
    (h2 : member st "reported" = .ok (.obj fields))
    (h3 : lookupD fields "brightness" = .undefined) :
    (getBrightness t).2 = .ok (some 0) := by
  have hg : (getBrightness t).2 = getBrightnessPayload payload := by
    simp [getBrightness, h0]
  rw [hg, getBrightnessPayload_eq payload st fields h1 h2, h3]
  have : toPercentage 0 = 0 := by norm_num [toPercentage, jsRound]
  simp [jsOr, truthy, toNumber, this]

/-- Witness for C4 on the concrete read result
`{ state: { reported: {} } }`. -/
theorem getBrightness_absent_is_zero_witness :
    (getBrightness ⟨Except.ok (JsVal.obj [("state", JsVal.obj [("reported",
        JsVal.obj [])])]), fun _ => Except.ok ()⟩).2 = .ok (some 0) :=
  getBrightness_absent_is_zero _ _ _ [] rfl rfl rfl rfl

/-- C9: when a successful shadow read returns a payload whose `state`
field, or whose `reported` sub-tree, is entirely absent, both `getOn`
and `getBrightness` fail with a TypeError (accessing a property of
`undefined`) instead of returning the defaults `false` / `0`. -/
theorem missing_state_or_reported_errors (t : Transport) (payload st : JsVal)
    (h0 : t.read = .ok payload)
    (h : member payload "state" = .ok .undefined ∨
         (member payload "state" = .ok st ∧ member st "reported" = .ok .undefined)) :
    (getOn t).2 = .error .typeError ∧ (getBrightness t).2 = .error .typeError := by
  have hg1 : (getOn t).2 = getOnPayload payload := by simp [getOn, h0]
  have hg2 : (getBrightness t).2 = getBrightnessPayload payload := by simp [getBrightness, h0]
  rw [hg1, hg2]
  have hmu : ∀ k, member JsVal.undefined k = .error .typeError := fun _ => rfl
  rcases h with h1 | ⟨h1, h2⟩
  · constructor <;>
      simp [getOnPayload, getBrightnessPayload, h1, hmu, Except.instMonad, Except.bind,
        Except.map, Except.pure]
  · constructor <;>
      simp [getOnPayload, getBrightnessPayload, h1, h2, hmu, Except.instMonad, Except.bind,
        Except.map, Except.pure]

/-- Witness for C9 on the concrete read result `{}` (no `state`
field). -/
theorem missing_state_or_reported_errors_witness :
    (getOn ⟨Except.ok (JsVal.obj []), fun _ => Except.ok ()⟩).2 = .error .typeError ∧
    (getBrightness ⟨Except.ok (JsVal.obj []), fun _ => Except.ok ()⟩).2 = .error .typeError :=
  missing_state_or_reported_errors _ _ JsVal.undefined rfl (Or.inl rfl)

/-- C10: `getBrightness` conflates every falsy `reported.brightness`
value — absent (`undefined`), `0`, `null`, `false`, the empty string —
with brightness `0`: the `|| 0` fallback replaces the value with the
number `0`, and the operation returns `0`. -/
theorem getBrightness_falsy_is_zero (t : Transport) (payload st : JsVal)
    (fields : List (String × JsVal))
    (h0 : t.read = .ok payload)
    (h1 : member payload "state" = .ok st)
    (h2 : member st "reported" = .ok (.obj fields))
    (h3 : truthy (lookupD fields "brightness") = false) :
    jsOr (lookupD fields "brightness") (JsVal.num 0) = JsVal.num 0 ∧
    (getBrightness t).2 = .ok (some 0) := by
  have hor : jsOr (lookupD fields "brightness") (JsVal.num 0) = JsVal.num 0 := by
    simp [jsOr, h3]
  have hg : (getBrightness t).2 = getBrightnessPayload payload := by
    simp [getBrightness, h0]
  rw [hg, getBrightnessPayload_eq payload st fields h1 h2, hor]
  have : toPercentage 0 = 0 := by norm_num [toPercentage, jsRound]
  exact ⟨rfl, by simp [toNumber, this]⟩

/-- Witness for C10 on the concrete read result
`{ state: { reported: { brightness: null } } }`. -/
theorem getBrightness_falsy_is_zero_witness :
    jsOr (lookupD [("brightness", JsVal.null)] "brightness") (JsVal.num 0) = JsVal.num 0 ∧
    (getBrightness ⟨Except.ok (JsVal.obj [("state", JsVal.obj [("reported",
        JsVal.obj [("brightness", JsVal.null)])])]), fun _ => Except.ok ()⟩).2 =
      .ok (some 0) :=
  getBrightness_falsy_is_zero _ _ _ _ rfl rfl rfl rfl

/-- C2: `setOn true` issues exactly one shadow write whose serialized
payload is exactly `{"state":{"desired":{"light":"on"}}}` — in
particular it carries no `brightness` field and no `desired` field
other than `light` — and `setOn false` likewise issues exactly one
write setting `desired.light` to `"off"`.  (The write itself is a
partial merge by the transport's `updateThingShadow` contract, so no
other `desired` fields are touched.) -/
theorem setOn_exactly_one_exact_write (t : Transport) :
    (setOn t true).1 =
      [ShadowOp.write "\x7b\"state\":\x7b\"desired\":\x7b\"light\":\"on\"\x7d\x7d\x7d"] ∧
    (setOn t false).1 =
      [ShadowOp.write "\x7b\"state\":\x7b\"desired\":\x7b\"light\":\"off\"\x7d\x7d\x7d"] := by
  have ht : (setOn t true).1 = [ShadowOp.write (stringify (setOnPayload true))] := rfl
  have hf : (setOn t false).1 = [ShadowOp.write (stringify (setOnPayload false))] := rfl
  rw [ht, hf]
  exact ⟨by decide, by decide⟩

/-- C3: `setBrightness 50` issues exactly one shadow write whose
payload sets `desired.brightness` to `128` and carries no `light`
field: the conversion `Math.round((50 / 100) * 255)` rounds the
half-way value `127.5` upward to `128`. -/
theorem setBrightness_50_writes_128 (t : Transport) :
    toNative 50 = 128 ∧
    (setBrightness t 50).1 =
      [ShadowOp.write "\x7b\"state\":\x7b\"desired\":\x7b\"brightness\":128\x7d\x7d\x7d"] := by
  have h : toNative 50 = 128 := by norm_num [toNative, jsRound]
  refine ⟨h, ?_⟩
  have h1 : (setBrightness t 50).1 = [ShadowOp.write (stringify (setBrightnessPayload 50))] :=
    rfl
  rw [h1, setBrightnessPayload, h]
  decide

/-- C5: the percentage-to-native conversion of `setBrightness` is
monotone non-decreasing on the percentages `0, …, 100` (indeed on all
of `ℚ`) and boundary-exact: `toNative 0 = 0` and `toNative 100 = 255`. -/
theorem toNative_monotone_and_boundary_exact :
    (∀ p q : ℕ, p ≤ q → q ≤ 100 → toNative p ≤ toNative q) ∧
    toNative 0 = 0 ∧ toNative 100 = 255 := by
  refine ⟨fun p q hpq _ => ?_, by norm_num [toNative, jsRound], by norm_num [toNative, jsRound]⟩
  unfold toNative jsRound
  have hq : (p : ℚ) ≤ (q : ℚ) := by exact_mod_cast hpq
  have harg : (p : ℚ) / 100 * 255 + 1/2 ≤ (q : ℚ) / 100 * 255 + 1/2 := by linarith
  exact_mod_cast Int.floor_mono harg

/-- Witness for C5 at the concrete pair `40 ≤ 60` together with the
boundary values. -/
theorem toNative_monotone_and_boundary_exact_witness :
    toNative 40 ≤ toNative 60 ∧ toNative 0 = 0 ∧ toNative 100 = 255 :=
  ⟨toNative_monotone_and_boundary_exact.1 40 60 (by norm_num) (by norm_num),
   toNative_monotone_and_boundary_exact.2.1,
   toNative_monotone_and_boundary_exact.2.2⟩

/-- C6: the native-to-percentage conversion of `getBrightness` is
monotone non-decreasing on the native values `0, …, 255` (indeed on all
of `ℚ`), boundary-exact — `toPercentage 0 = 0`, `toPercentage 255 = 100`
— and in particular a reported brightness of `200` yields the
percentage `78`. -/
theorem toPercentage_monotone_and_boundary_exact :
    (∀ n m : ℕ, n ≤ m → m ≤ 255 → toPercentage n ≤ toPercentage m) ∧
    toPercentage 0 = 0 ∧ toPercentage 255 = 100 ∧ toPercentage 200 = 78 := by
  refine ⟨fun n m hnm _ => ?_, by norm_num [toPercentage, jsRound],
    by norm_num [toPercentage, jsRound], by norm_num [toPercentage, jsRound]⟩
  unfold toPercentage jsRound
  have hq : (n : ℚ) ≤ (m : ℚ) := by exact_mod_cast hnm
  have harg : (n : ℚ) / 255 * 100 + 1/2 ≤ (m : ℚ) / 255 * 100 + 1/2 := by linarith
  exact_mod_cast Int.floor_mono harg

/-- Witness for C6 at the concrete pair `100 ≤ 200` together with the
boundary values and the `200 ↦ 78` instance. -/
theorem toPercentage_monotone_and_boundary_exact_witness :
    toPercentage 100 ≤ toPercentage 200 ∧ toPercentage 0 = 0 ∧
    toPercentage 255 = 100 ∧ toPercentage 200 = 78 :=
  ⟨toPercentage_monotone_and_boundary_exact.1 100 200 (by norm_num) (by norm_num),
   toPercentage_monotone_and_boundary_exact.2.1,
   toPercentage_monotone_and_boundary_exact.2.2.1,
   toPercentage_monotone_and_boundary_exact.2.2.2⟩

/-- C7: when the transport fails with a `TransportError`, each of the
four operations propagates that very error to the caller — the get
operations return no default value, every operation issues exactly one
transport call (no retry), and the error object `e` is carried
unchanged inside the result. -/
theorem transport_error_propagates (e : TransportError) (t : Transport)
    (hr : t.read = .error e) (hw : ∀ s, t.write s = .error e) :
    (getOn t).2 = .error (.transport e) ∧ (getOn t).1 = [ShadowOp.read] ∧
    (getBrightness t).2 = .error (.transport e) ∧ (getBrightness t).1 = [ShadowOp.read] ∧
    (∀ v, (setOn t v).2 = .error (.transport e) ∧ (setOn t v).1.length = 1) ∧
    (∀ q, (setBrightness t q).2 = .error (.transport e) ∧
      (setBrightness t q).1.length = 1) := by
  refine ⟨by simp [getOn, hr], rfl, by simp [getBrightness, hr], rfl, fun v => ?_, fun q => ?_⟩
  · exact ⟨by simp [setOn, hw], rfl⟩
  · exact ⟨by simp [setBrightness, hw], rfl⟩

/-- Witness for C7 on a concrete transport whose read and write both
reject with the error `"network"`. -/
theorem transport_error_propagates_witness :
    (getOn ⟨Except.error ⟨"network"⟩, fun _ => Except.error ⟨"network"⟩⟩).2 =
      .error (.transport ⟨"network"⟩) ∧
    (getOn ⟨Except.error ⟨"network"⟩, fun _ => Except.error ⟨"network"⟩⟩).1 =
      [ShadowOp.read] ∧
    (getBrightness ⟨Except.error ⟨"network"⟩, fun _ => Except.error ⟨"network"⟩⟩).2 =
      .error (.transport ⟨"network"⟩) ∧
    (getBrightness ⟨Except.error ⟨"network"⟩, fun _ => Except.error ⟨"network"⟩⟩).1 =
      [ShadowOp.read] ∧
    (∀ v, (setOn ⟨Except.error ⟨"network"⟩, fun _ => Except.error ⟨"network"⟩⟩ v).2 =
        .error (.transport ⟨"network"⟩) ∧
      (setOn ⟨Except.error ⟨"network"⟩, fun _ => Except.error ⟨"network"⟩⟩ v).1.length = 1) ∧
    (∀ q, (setBrightness ⟨Except.error ⟨"network"⟩, fun _ => Except.error ⟨"network"⟩⟩ q).2 =
        .error (.transport ⟨"network"⟩) ∧
      (setBrightness ⟨Except.error ⟨"network"⟩,
        fun _ => Except.error ⟨"network"⟩⟩ q).1.length = 1) :=
  transport_error_propagates ⟨"network"⟩ _ rfl (fun _ => rfl)

/-- C8: for every successful shadow read whose payload conforms to the
documented wire shape (the `reported` sub-tree present, its
`brightness` either absent or a number in the native range `[0, 255]`),
`getBrightness` returns an integer percentage in `[0, 100]`. -/
theorem getBrightness_in_range (t : Transport) (payload st : JsVal)
    (fields : List (String × JsVal)) (q : ℚ)
    (h0 : t.read = .ok payload)
    (h1 : member payload "state" = .ok st)
    (h2 : member st "reported" = .ok (.obj fields))
    (h3 : lookupD fields "brightness" = .undefined ∨
          (lookupD fields "brightness" = .num q ∧ 0 ≤ q ∧ q ≤ 255)) :
    ∃ k : ℤ, (getBrightness t).2 = .ok (some (k : ℚ)) ∧ 0 ≤ k ∧ k ≤ 100 := by
  have hg : (getBrightness t).2 = getBrightnessPayload payload := by
    simp [getBrightness, h0]
  rw [hg, getBrightnessPayload_eq payload st fields h1 h2]
  have key : ∀ r : ℚ, 0 ≤ r → r ≤ 255 →
      ∃ k : ℤ, toPercentage r = (k : ℚ) ∧ 0 ≤ k ∧ k ≤ 100 := by
    intro r hr0 hr255
    refine ⟨⌊r / 255 * 100 + 1/2⌋, rfl, ?_, ?_⟩
    · rw [Int.le_floor]
      push_cast
      have : 0 ≤ r / 255 * 100 := by positivity
      linarith
    · have : ⌊r / 255 * 100 + 1/2⌋ < 101 := by
        rw [Int.floor_lt]
        push_cast
        have : r / 255 * 100 ≤ 100 := by
          rw [div_mul_eq_mul_div, div_le_iff₀ (by norm_num : (0:ℚ) < 255)]
          linarith
        linarith
      omega
  rcases h3 with h3 | ⟨h3, hq0, hq255⟩
  · rw [h3]
    obtain ⟨k, hk, hk0, hk100⟩ := key 0 le_rfl (by norm_num)
    exact ⟨k, by simp [jsOr, truthy, toNumber, hk], hk0, hk100⟩
  · rw [h3]
    by_cases hz : q = 0
    · subst hz
      obtain ⟨k, hk, hk0, hk100⟩ := key 0 le_rfl (by norm_num)
      exact ⟨k, by simp [jsOr, truthy, toNumber, hk], hk0, hk100⟩
    · obtain ⟨k, hk, hk0, hk100⟩ := key q hq0 hq255
      exact ⟨k, by simp [jsOr, truthy, toNumber, hz, hk], hk0, hk100⟩

/-- Witness for C8 on the concrete read result
`{ state: { reported: { light: "on", brightness: 200 } } }`. -/
theorem getBrightness_in_range_witness :
    ∃ k : ℤ, (getBrightness ⟨Except.ok (JsVal.obj [("state", JsVal.obj [("reported",
        JsVal.obj [("light", JsVal.str "on"), ("brightness", JsVal.num 200)])])]),
        fun _ => Except.ok ()⟩).2 = .ok (some (k : ℚ)) ∧ 0 ≤ k ∧ k ≤ 100 :=
  getBrightness_in_range _ _ _ _ 200 rfl rfl rfl
    (Or.inr ⟨rfl, by norm_num, by norm_num⟩)

end NeoPixel
